import Mathlib

/-!
Verification of the TCPL ticket-dashboard filtering/aggregation pipeline.

The two scripts `app.py` and `streamlit_ticket_dashboard_app.py` share one
pipeline: load a spreadsheet into a dataframe, apply sidebar filters
(multiselects on `Priority`, `TicketType`, `Resolution Status`, plus a
created-date range), compute KPIs and grouped counts, display a sorted
table, and export the filtered rows.

Modelling conventions:
- A timestamp is a `Nat` counting minutes since an epoch; a calendar date is
  the day number `t / 1440`; `pd.to_datetime(date)` of a date `d` is the
  midnight timestamp `1440 * d`.
- A missing cell (pandas `NaN`/`NaT`) is `none`.
- A dataframe records which recognized columns are present (`has*` flags)
  and its rows; unrecognized columns are inert and not modelled.
- `pandas` raises `KeyError` on `df[col]` for an absent column; this is an
  `Except.error`.
- `value_counts()` / `groupby(...).size()` drop missing keys; their pandas
  output ordering (by count, resp. key) is not modelled, only the key/count
  associations, which is all the aggregation contract speaks about.
-/

structure Row where
  priority : Option String
  ticketType : Option String
  resolutionStatus : Option String
  createdTime : Option Nat
  closedTime : Option Nat
deriving DecidableEq

structure DataFrame where
  hasPriority : Bool
  hasTicketType : Bool
  hasResolutionStatus : Bool
  hasCreatedTime : Bool
  hasClosedTime : Bool
  rows : List Row
deriving DecidableEq

/-- Selections of the sidebar filters after date normalization: one list of
selected values per categorical column (empty list = no filter, matching the
Python truthiness test `if priority_filter:`) and the optional timestamp
interval for `Created Time`. -/
structure FilterCriteria where
  priorityFilter : List String
  ticketTypeFilter : List String
  slaFilter : List String
  dateRange : Option (Nat × Nat)
deriving DecidableEq

/-- Options offered by a sidebar multiselect:
`df.get(col, pd.Series()).dropna().unique()` — the distinct non-missing
values of the column, or nothing when the column is absent. -/
def filterOptions (has : Bool) (get : Row → Option String) (df : DataFrame) :
    List String :=
  if has then (df.rows.filterMap get).dedup else []

/-- Row predicate of one categorical filter: `column.isin(sel)`; a missing
value is never in the selection (pandas `NaN.isin` is `False`). -/
def catPred (sel : List String) (get : Row → Option String) (r : Row) : Bool :=
  match get r with
  | some v => sel.contains v
  | none => false

/-- One step `if sel: filtered_df = filtered_df[filtered_df[col].isin(sel)]`.
A non-empty selection over an absent column raises `KeyError`. -/
def applyCatFilter (sel : List String) (has : Bool) (get : Row → Option String)
    (rows : List Row) : Except String (List Row) :=
  match sel with
  | [] => Except.ok rows
  | _ :: _ =>
      if has then Except.ok (rows.filter (catPred sel get))
      else Except.error "KeyError: column not in index"

/-- Row predicate of the date filter:
`(df['Created Time'] >= start) & (df['Created Time'] <= end)`; a `NaT`
compares `False` on both sides. -/
def datePred (s e : Nat) (r : Row) : Bool :=
  match r.createdTime with
  | some t => decide (s ≤ t) && decide (t ≤ e)
  | none => false

/-- The date-range step, guarded by `start_date is not None and
'Created Time' in filtered_df.columns`. -/
def applyDateFilter (dr : Option (Nat × Nat)) (has : Bool) (rows : List Row) :
    List Row :=
  match dr with
  | some (s, e) => if has then rows.filter (datePred s e) else rows
  | none => rows

/-- The filter stage (`app.py` lines 55-64,
`streamlit_ticket_dashboard_app.py` lines 77-89): the three categorical
filters then the date filter, composed by AND. -/
def filtered_df (df : DataFrame) (c : FilterCriteria) :
    Except String DataFrame :=
  match applyCatFilter c.priorityFilter df.hasPriority Row.priority df.rows with
  | Except.error e => Except.error e
  | Except.ok r1 =>
    match applyCatFilter c.ticketTypeFilter df.hasTicketType Row.ticketType r1 with
    | Except.error e => Except.error e
    | Except.ok r2 =>
      match applyCatFilter c.slaFilter df.hasResolutionStatus Row.resolutionStatus r2 with
      | Except.error e => Except.error e
      | Except.ok r3 =>
          Except.ok { df with rows := applyDateFilter c.dateRange df.hasCreatedTime r3 }

/-- Raw value handed back by the date-range widget: a list of day numbers or
a single day number. -/
inductive DateInput where
  | list (ds : List Nat)
  | single (d : Nat)

/-- Date-range normalization (`streamlit_ticket_dashboard_app.py` lines
60-68): a two-element list is unpacked in order, a one-element list and a
bare date both give `start = end`. -/
def normalizeDateInput : DateInput → Option Nat × Option Nat
  | DateInput.list [a, b] => (some a, some b)
  | DateInput.list [a] => (some a, some a)
  | DateInput.list _ => (none, none)
  | DateInput.single d => (some d, some d)

/-- Conversion of the normalized dates to the timestamp interval used by the
filter stage (lines 71-74 and 85-89): `pd.to_datetime` of a date is its
midnight timestamp, and a missing end falls back to the start. -/
def dateRangeOfInput (v : DateInput) : Option (Nat × Nat) :=
  match normalizeDateInput v with
  | (some s, some e) => some (1440 * s, 1440 * e)
  | (some s, none) => some (1440 * s, 1440 * s)
  | (none, _) => none

/-- The widget's default interval (lines 53-57):
`[df['Created Time'].min().date(), df['Created Time'].max().date()]`.
When every `Created Time` is missing the code would reach `NaT.date()`;
that crash path, which no claim touches, is modelled as `none`. -/
def defaultDateRange (df : DataFrame) : Option (Nat × Nat) :=
  if df.hasCreatedTime then
    match (df.rows.filterMap Row.createdTime).min?,
        (df.rows.filterMap Row.createdTime).max? with
    | some mn, some mx => dateRangeOfInput (DateInput.list [mn / 1440, mx / 1440])
    | _, _ => none
  else none

/-- The criteria produced by leaving every multiselect empty and the date
widget at its default full range. -/
def defaultCriteria (df : DataFrame) : FilterCriteria :=
  { priorityFilter := []
    ticketTypeFilter := []
    slaFilter := []
    dateRange := defaultDateRange df }

/-- Does the character list start with the given needle? -/
def charsStartWith : List Char → List Char → Bool
  | [], _ => true
  | _ :: _, [] => false
  | a :: as, b :: bs => a == b && charsStartWith as bs

/-- Substring test on character lists. -/
def charsContain (needle : List Char) : List Char → Bool
  | [] => needle.isEmpty
  | b :: bs => charsStartWith needle (b :: bs) || charsContain needle bs

/-- The SLA-compliance test of `streamlit_ticket_dashboard_app.py` line 95:
`.str.contains('Within', case=False)` — the pattern has no regex
metacharacters, so it is a case-insensitive substring test. -/
def containsWithin (s : String) : Bool :=
  charsContain "within".data (s.data.map Char.toLower)

/-- KPI `within_sla` of `streamlit_ticket_dashboard_app.py` lines 93-95:
count of rows whose `Resolution Status` contains "Within" case-insensitively
(`na=False` sends missing values to `False`); `0` when the column is absent. -/
def within_sla (df : DataFrame) : Nat :=
  if df.hasResolutionStatus then
    (df.rows.filter (fun r =>
      match r.resolutionStatus with
      | some s => containsWithin s
      | none => false)).length
  else 0

/-- KPI `within_sla` of `app.py` line 68: count of rows whose
`Resolution Status` is exactly equal to the string `"Within SLA"`. -/
def app_within_sla (df : DataFrame) : Nat :=
  if df.hasResolutionStatus then
    (df.rows.filter (fun r => r.resolutionStatus == some "Within SLA")).length
  else 0

/-- `sla_percentage` of `streamlit_ticket_dashboard_app.py` line 96:
`(within_sla / total_tickets * 100) if total_tickets > 0 else 0`. -/
def sla_percentage (df : DataFrame) : ℚ :=
  if 0 < df.rows.length then
    (within_sla df : ℚ) / (df.rows.length : ℚ) * 100
  else 0

/-- `sla_percentage` of `app.py` line 69, built on its equality-based count. -/
def app_sla_percentage (df : DataFrame) : ℚ :=
  if 0 < df.rows.length then
    (app_within_sla df : ℚ) / (df.rows.length : ℚ) * 100
  else 0

/-- Follows the spec wording for `withinSlaPercentage`'s numerator: the
number of rows whose `ResolutionStatus` value case-insensitively contains
"Within"; kept separate from `within_sla` so the two can be compared. -/
def countWithinSpec (df : DataFrame) : Nat :=
  (df.rows.filter (fun r =>
    match r.resolutionStatus with
    | some s => containsWithin s
    | none => false)).length

/-- `value_counts()` over one optional-string column: each distinct
non-missing value paired with its number of occurrences (missing values are
dropped, as pandas does by default). -/
def value_counts (get : Row → Option String) (rows : List Row) :
    List (String × Nat) :=
  (rows.filterMap get).dedup.map (fun v => (v, (rows.filterMap get).count v))

/-- `countByPriority` as produced for the bar chart
(`streamlit_ticket_dashboard_app.py` lines 107-109), guarded by
`'Priority' in filtered_df.columns and not filtered_df.empty`. -/
def prio_counts (df : DataFrame) : List (String × Nat) :=
  if df.hasPriority && !df.rows.isEmpty then value_counts Row.priority df.rows
  else []

/-- Total of the counts of a grouped-count mapping. -/
def sumCounts (cs : List (String × Nat)) : Nat :=
  (cs.map Prod.snd).sum

/-- Value shown by a Streamlit metric: a number, pandas `NaN` (printed
"nan"), or the textual `'—'` placeholder. -/
inductive Metric where
  | value (q : ℚ)
  | nan
  | dash
deriving DecidableEq

/-- Per-row resolution spans `Closed Time − Created Time` in minutes, over
exactly the rows where both are present (a subtraction touching `NaT` is
`NaT`, whose `total_seconds()` is `NaN`, which `mean()` skips). -/
def resolutionDiffs (rows : List Row) : List Int :=
  rows.filterMap (fun r =>
    match r.closedTime, r.createdTime with
    | some c, some t => some ((c : Int) - (t : Int))
    | _, _ => none)

/-- The `Avg Resolution (hrs)` metric of `streamlit_ticket_dashboard_app.py`
line 101: mean of per-row spans converted to hours, guarded by both columns
existing and the view being non-empty, with `'—'` otherwise. When the guard
passes but every span is missing, `mean()` of an all-`NaN` column is `NaN`.
The final `round(..., 2)` is display formatting (like the `:.1f` applied to
`sla_percentage`) and is not modelled. -/
def avg_resolution_metric (df : DataFrame) : Metric :=
  if df.hasClosedTime && df.hasCreatedTime && !df.rows.isEmpty then
    match resolutionDiffs df.rows with
    | [] => Metric.nan
    | d :: ds =>
        Metric.value ((((d :: ds).map (fun x : Int => (x : ℚ) / 60)).sum) /
          (((d :: ds).length : ℚ)))
  else Metric.dash

/-- Follows the spec wording for `avgResolutionHours`: the mean of
`(ClosedTime − CreatedTime)` expressed in hours over the rows where both
fields are present. -/
def specAvgResolutionHours (rows : List Row) : ℚ :=
  (((resolutionDiffs rows).map (fun x : Int => (x : ℚ))).sum /
    ((resolutionDiffs rows).length : ℚ)) / 60

/-- Sort key of the displayed table: `sort_values(by='Created Time',
ascending=False)` orders by timestamp descending with missing values last,
which is ascending order of this key. -/
def dispKey (r : Row) : Int :=
  match r.createdTime with
  | some t => -(t : Int)
  | none => 1

/-- Display order: ascending in `dispKey`, i.e. `Created Time` descending,
missing timestamps last. -/
def dispLe (a b : Row) : Prop := dispKey a ≤ dispKey b

instance : DecidableRel dispLe :=
  fun a b => inferInstanceAs (Decidable (dispKey a ≤ dispKey b))

instance : IsTotal Row dispLe :=
  ⟨fun a b => le_total (dispKey a) (dispKey b)⟩

instance : IsTrans Row dispLe :=
  ⟨fun _ _ _ hab hbc => le_trans hab hbc⟩

/-- The rendered table (`streamlit_ticket_dashboard_app.py` line 127): the
filtered rows sorted by `Created Time` descending; `sort_values` raises
`KeyError` when the column is absent. The pandas default sort is unstable,
so only the ordering relation, not tie order, is specified. -/
def display_table (df : DataFrame) : Except String (List Row) :=
  if df.hasCreatedTime then Except.ok (List.insertionSort dispLe df.rows)
  else Except.error "KeyError: Created Time"

/-- Rows written to the exported sheet (lines 130-138): `to_excel_bytes`
receives `filtered_df` itself, not the sorted copy made for display. -/
def export_rows (df : DataFrame) : List Row := df.rows

lemma applyCatFilter_ok_cases {sel : List String} {has : Bool}
    {get : Row → Option String} {rows out : List Row}
    (h : applyCatFilter sel has get rows = Except.ok out) :
    (sel = [] ∧ out = rows) ∨
      (sel ≠ [] ∧ has = true ∧ out = rows.filter (catPred sel get)) := by
  cases sel with
  | nil =>
      left
      refine ⟨rfl, ?_⟩
      simpa [applyCatFilter] using h.symm
  | cons a l =>
      right
      cases hb : has with
      | false => rw [hb] at h; simp [applyCatFilter] at h
      | true =>
          refine ⟨by simp, rfl, ?_⟩
          rw [hb] at h
          simpa [applyCatFilter] using h.symm

lemma applyCatFilter_ok_sublist {sel : List String} {has : Bool}
    {get : Row → Option String} {rows out : List Row}
    (h : applyCatFilter sel has get rows = Except.ok out) :
    out.Sublist rows := by
  rcases applyCatFilter_ok_cases h with ⟨-, rfl⟩ | ⟨-, -, rfl⟩
  · exact List.Sublist.refl _
  · exact List.filter_sublist _

lemma applyCatFilter_of_all (sel : List String) (has : Bool)
    (get : Row → Option String) (rows : List Row)
    (h : sel = [] ∨ (has = true ∧ ∀ x ∈ rows, catPred sel get x = true)) :
    applyCatFilter sel has get rows = Except.ok rows := by
  cases sel with
  | nil => rfl
  | cons a l =>
      rcases h with h | ⟨hh, hall⟩
      · cases h
      · rw [applyCatFilter, hh]
        simp [List.filter_eq_self.mpr hall]

lemma applyDateFilter_sublist (dr : Option (Nat × Nat)) (has : Bool)
    (rows : List Row) : (applyDateFilter dr has rows).Sublist rows := by
  cases dr with
  | none => exact List.Sublist.refl _
  | some p =>
      obtain ⟨s, e⟩ := p
      cases has with
      | false => exact List.Sublist.refl _
      | true => exact List.filter_sublist _

lemma applyDateFilter_of_all (dr : Option (Nat × Nat)) (has : Bool)
    (rows : List Row)
    (h : ∀ s e, dr = some (s, e) → has = true →
      ∀ x ∈ rows, datePred s e x = true) :
    applyDateFilter dr has rows = rows := by
  cases dr with
  | none => rfl
  | some p =>
      obtain ⟨s, e⟩ := p
      cases has with
      | false => rfl
      | true =>
          simpa [applyDateFilter] using
            List.filter_eq_self.mpr (h s e rfl rfl)

lemma filtered_df_ok_iff {df v : DataFrame} {c : FilterCriteria} :
    filtered_df df c = Except.ok v ↔
    ∃ r1 r2 r3,
      applyCatFilter c.priorityFilter df.hasPriority Row.priority df.rows =
        Except.ok r1 ∧
      applyCatFilter c.ticketTypeFilter df.hasTicketType Row.ticketType r1 =
        Except.ok r2 ∧
      applyCatFilter c.slaFilter df.hasResolutionStatus Row.resolutionStatus r2 =
        Except.ok r3 ∧
      v = { df with rows := applyDateFilter c.dateRange df.hasCreatedTime r3 } := by
  constructor
  · intro h
    rw [filtered_df] at h
    split at h
    · exact Except.noConfusion h
    · next r1 heq1 =>
      split at h
      · exact Except.noConfusion h
      · next r2 heq2 =>
        split at h
        · exact Except.noConfusion h
        · next r3 heq3 =>
          exact ⟨r1, r2, r3, heq1, heq2, heq3, (Except.ok.inj h).symm⟩
  · rintro ⟨r1, r2, r3, e1, e2, e3, rfl⟩
    rw [filtered_df, e1]
    dsimp only
    rw [e2]
    dsimp only
    rw [e3]

/-- C1: every row of the FilteredView produced by the filter stage is a row
of the Dataset, and the filter stage is idempotent: re-filtering its own
output with the same criteria returns that output unchanged.  (Determinism
of filtering is immediate in this model: `filtered_df` is a pure function of
the Dataset and the FilterCriteria, with no other state.) -/
theorem c1_filtered_subset_and_idempotent (df v : DataFrame)
    (c : FilterCriteria) (h : filtered_df df c = Except.ok v) :
    (∀ r ∈ v.rows, r ∈ df.rows) ∧ filtered_df v c = Except.ok v := by
  obtain ⟨r1, r2, r3, h1, h2, h3, hv⟩ := filtered_df_ok_iff.mp h
  subst hv
  have s1 : r1.Sublist df.rows := applyCatFilter_ok_sublist h1
  have s2 : r2.Sublist r1 := applyCatFilter_ok_sublist h2
  have s3 : r3.Sublist r2 := applyCatFilter_ok_sublist h3
  have s4 : (applyDateFilter c.dateRange df.hasCreatedTime r3).Sublist r3 :=
    applyDateFilter_sublist _ _ _
  set rd := applyDateFilter c.dateRange df.hasCreatedTime r3 with hrd
  have hsub : rd.Sublist df.rows := (s4.trans s3).trans (s2.trans s1)
  refine ⟨fun r hr => hsub.subset hr, ?_⟩
  have m1 : ∀ x ∈ rd, x ∈ r1 := fun x hx => s2.subset (s3.subset (s4.subset hx))
  have m2 : ∀ x ∈ rd, x ∈ r2 := fun x hx => s3.subset (s4.subset hx)
  have m3 : ∀ x ∈ rd, x ∈ r3 := fun x hx => s4.subset hx
  have e1 : applyCatFilter c.priorityFilter df.hasPriority Row.priority rd =
      Except.ok rd := by
    apply applyCatFilter_of_all
    rcases applyCatFilter_ok_cases h1 with ⟨hnil, -⟩ | ⟨-, hh, hfl⟩
    · exact Or.inl hnil
    · refine Or.inr ⟨hh, fun x hx => ?_⟩
      have hm : x ∈ df.rows.filter (catPred c.priorityFilter Row.priority) :=
        hfl ▸ m1 x hx
      exact (List.mem_filter.mp hm).2
  have e2 : applyCatFilter c.ticketTypeFilter df.hasTicketType Row.ticketType rd =
      Except.ok rd := by
    apply applyCatFilter_of_all
    rcases applyCatFilter_ok_cases h2 with ⟨hnil, -⟩ | ⟨-, hh, hfl⟩
    · exact Or.inl hnil
    · refine Or.inr ⟨hh, fun x hx => ?_⟩
      have hm : x ∈ r1.filter (catPred c.ticketTypeFilter Row.ticketType) :=
        hfl ▸ m2 x hx
      exact (List.mem_filter.mp hm).2
  have e3 : applyCatFilter c.slaFilter df.hasResolutionStatus Row.resolutionStatus rd =
      Except.ok rd := by
    apply applyCatFilter_of_all
    rcases applyCatFilter_ok_cases h3 with ⟨hnil, -⟩ | ⟨-, hh, hfl⟩
    · exact Or.inl hnil
    · refine Or.inr ⟨hh, fun x hx => ?_⟩
      have hm : x ∈ r2.filter (catPred c.slaFilter Row.resolutionStatus) :=
        hfl ▸ m3 x hx
      exact (List.mem_filter.mp hm).2
  have e4 : applyDateFilter c.dateRange df.hasCreatedTime rd = rd := by
    apply applyDateFilter_of_all
    intro s e hdr hhas x hx
    have hm : x ∈ r3.filter (datePred s e) := by
      rw [hrd, hdr, applyDateFilter, hhas] at hx
      exact hx
    exact (List.mem_filter.mp hm).2
  refine filtered_df_ok_iff.mpr ⟨rd, rd, rd, e1, e2, e3, ?_⟩
  dsimp only
  rw [e4]

def c1df : DataFrame :=
  { hasPriority := true, hasTicketType := true, hasResolutionStatus := true,
    hasCreatedTime := true, hasClosedTime := true,
    rows := [{ priority := some "P1", ticketType := some "Bug",
               resolutionStatus := some "Within SLA", createdTime := some 0,
               closedTime := some 60 },
             { priority := some "P4", ticketType := some "Request",
               resolutionStatus := some "Breached", createdTime := some 1440,
               closedTime := none }] }

def c1crit : FilterCriteria :=
  { priorityFilter := ["P1"], ticketTypeFilter := [], slaFilter := [],
    dateRange := some (0, 2880) }

def c1view : DataFrame :=
  { hasPriority := true, hasTicketType := true, hasResolutionStatus := true,
    hasCreatedTime := true, hasClosedTime := true,
    rows := [{ priority := some "P1", ticketType := some "Bug",
               resolutionStatus := some "Within SLA", createdTime := some 0,
               closedTime := some 60 }] }

/-- Concrete instantiation of `c1_filtered_subset_and_idempotent`. -/
theorem c1_witness :
    (∀ r ∈ c1view.rows, r ∈ c1df.rows) ∧
      filtered_df c1view c1crit = Except.ok c1view :=
  c1_filtered_subset_and_idempotent c1df c1view c1crit (by rfl)

/-- C2: on an empty FilteredView both scripts' guard `if total_tickets > 0`
takes the `else 0` branch, so the percentage is `0` with no division
performed; the result is an ordinary rational, never an error and never a
NaN. -/
theorem c2_empty_view_sla_percentage_zero (v : DataFrame)
    (h : v.rows.length = 0) :
    sla_percentage v = 0 ∧ app_sla_percentage v = 0 := by
  rw [sla_percentage, app_sla_percentage, h]
  simp

def c2df : DataFrame :=
  { hasPriority := true, hasTicketType := true, hasResolutionStatus := true,
    hasCreatedTime := true, hasClosedTime := true, rows := [] }

/-- Concrete instantiation of `c2_empty_view_sla_percentage_zero`. -/
theorem c2_witness : sla_percentage c2df = 0 ∧ app_sla_percentage c2df = 0 :=
  c2_empty_view_sla_percentage_zero c2df rfl

def c3df : DataFrame :=
  { hasPriority := true, hasTicketType := true, hasResolutionStatus := true,
    hasCreatedTime := true, hasClosedTime := true,
    rows := [{ priority := some "P1", ticketType := some "Bug",
               resolutionStatus := some "Within SLA",
               createdTime := some 720, closedTime := none }] }

/-- C3 counterexample: a dataset whose single row was created at 12:00 of
day 0.  The default date range is `[min date, max date] = [0, 0]`, converted
to the midnight timestamps `(0, 0)`, and the filter `0 ≤ 720 ≤ 0` drops the
row: the all-empty criteria with the default full range return the empty
view, not the whole dataset. -/
theorem c3_counterexample :
    filtered_df c3df (defaultCriteria c3df) =
        Except.ok { c3df with rows := [] } ∧
      ({ c3df with rows := [] } : DataFrame) ≠ c3df :=
  ⟨rfl, by decide⟩

/-- C3 as amended: with every multiselect empty and the date widget at its
default full range, the filter stage returns the whole Dataset, provided
every row's `Created Time` is present and is a midnight timestamp (carries
no time-of-day).  Without that proviso rows with a missing `Created Time`,
or with a time-of-day later than midnight of the latest date, are dropped
(`c3_counterexample`). -/
theorem c3_amended_default_range_is_identity (df : DataFrame)
    (h : ∀ r ∈ df.rows, ∃ d, r.createdTime = some (1440 * d)) :
    filtered_df df (defaultCriteria df) = Except.ok df := by
  have key : applyDateFilter (defaultDateRange df) df.hasCreatedTime df.rows =
      df.rows := by
    cases hct : df.hasCreatedTime with
    | false => simp [defaultDateRange, hct, applyDateFilter]
    | true =>
        cases hmn : (df.rows.filterMap Row.createdTime).min? with
        | none =>
            have hnil : df.rows.filterMap Row.createdTime = [] :=
              List.min?_eq_none_iff.mp hmn
            simp [defaultDateRange, hct, hmn, hnil, applyDateFilter]
        | some mn =>
            have hne : df.rows.filterMap Row.createdTime ≠ [] := by
              intro hnil
              rw [hnil] at hmn
              exact Option.noConfusion hmn
            cases hmx : (df.rows.filterMap Row.createdTime).max? with
            | none => exact absurd (List.max?_eq_none_iff.mp hmx) hne
            | some mx =>
                have hdr : defaultDateRange df =
                    some (1440 * (mn / 1440), 1440 * (mx / 1440)) := by
                  simp [defaultDateRange, hct, hmn, hmx, dateRangeOfInput,
                    normalizeDateInput]
                rw [hdr]
                have happ : applyDateFilter
                    (some (1440 * (mn / 1440), 1440 * (mx / 1440)))
                    true df.rows =
                    df.rows.filter
                      (datePred (1440 * (mn / 1440)) (1440 * (mx / 1440))) := by
                  rw [applyDateFilter]
                  simp
                rw [happ]
                apply List.filter_eq_self.mpr
                intro r hr
                obtain ⟨d, hd⟩ := h r hr
                have htmem : (1440 * d) ∈ df.rows.filterMap Row.createdTime :=
                  List.mem_filterMap.mpr ⟨r, hr, hd⟩
                have hmn' := List.min?_eq_some_iff'.mp hmn
                have hmx' := List.max?_eq_some_iff'.mp hmx
                obtain ⟨rm, hrm, hdm⟩ := List.mem_filterMap.mp hmn'.1
                obtain ⟨dm, hdm2⟩ := h rm hrm
                have hmn1440 : mn = 1440 * dm := by
                  rw [hdm2] at hdm
                  exact (Option.some.inj hdm).symm
                obtain ⟨rM, hrM, hdM⟩ := List.mem_filterMap.mp hmx'.1
                obtain ⟨dM, hdM2⟩ := h rM hrM
                have hmx1440 : mx = 1440 * dM := by
                  rw [hdM2] at hdM
                  exact (Option.some.inj hdM).symm
                rw [datePred, hd]
                have hlow : 1440 * (mn / 1440) ≤ 1440 * d := by
                  rw [hmn1440, Nat.mul_div_cancel_left dm (by norm_num)]
                  rw [← hmn1440]
                  exact hmn'.2 _ htmem
                have hhigh : 1440 * d ≤ 1440 * (mx / 1440) := by
                  rw [hmx1440, Nat.mul_div_cancel_left dM (by norm_num)]
                  rw [← hmx1440]
                  exact hmx'.2 _ htmem
                simp [hlow, hhigh]
  refine filtered_df_ok_iff.mpr ⟨df.rows, df.rows, df.rows, rfl, rfl, rfl, ?_⟩
  dsimp only [defaultCriteria]
  rw [key]

def c3wdf : DataFrame :=
  { hasPriority := true, hasTicketType := true, hasResolutionStatus := true,
    hasCreatedTime := true, hasClosedTime := true,
    rows := [{ priority := some "P1", ticketType := some "Bug",
               resolutionStatus := some "Within SLA",
               createdTime := some 0, closedTime := some 2880 },
             { priority := some "P4", ticketType := some "Request",
               resolutionStatus := some "Breached",
               createdTime := some 2880, closedTime := none }] }

/-- Concrete instantiation of `c3_amended_default_range_is_identity`. -/
theorem c3_witness : filtered_df c3wdf (defaultCriteria c3wdf) = Except.ok c3wdf :=
  c3_amended_default_range_is_identity c3wdf (by
    intro r hr
    simp only [c3wdf, List.mem_cons, List.not_mem_nil, or_false] at hr
    rcases hr with h1 | h2
    · exact ⟨0, by rw [h1]⟩
    · exact ⟨2, by rw [h2]⟩)

def c4df : DataFrame :=
  { hasPriority := true, hasTicketType := true, hasResolutionStatus := true,
    hasCreatedTime := true, hasClosedTime := true,
    rows := [{ priority := none, ticketType := some "Bug",
               resolutionStatus := some "Breached",
               createdTime := some 0, closedTime := none },
             { priority := some "P1", ticketType := some "Bug",
               resolutionStatus := some "Within SLA",
               createdTime := some 0, closedTime := some 60 }] }

/-- C4 counterexample: `value_counts()` (and `groupby(...).size()` in
`app.py`) drop rows whose `Priority` is missing, so on a two-row view with
one missing `Priority` the counts sum to 1 while `total` is 2. -/
theorem c4_counterexample :
    sumCounts (prio_counts c4df) ≠ c4df.rows.length := by decide

/-- C4 as amended: when the `Priority` column exists, the counts of
`countByPriority` sum to the number of FilteredView rows with a present
(non-missing) `Priority` value; this equals `total` only when no row's
`Priority` is missing. -/
theorem c4_amended_sum_counts (df : DataFrame) (h : df.hasPriority = true) :
    sumCounts (prio_counts df) = (df.rows.filterMap Row.priority).length := by
  rw [prio_counts, h]
  cases hrw : df.rows with
  | nil => simp [sumCounts, value_counts]
  | cons a l =>
      simp only [List.isEmpty_cons, Bool.not_false, Bool.true_and, if_pos]
      rw [sumCounts, value_counts, List.map_map]
      have hcomp :
          (Prod.snd ∘ fun v =>
            (v, (List.filterMap Row.priority (a :: l)).count v)) =
          fun v => (List.filterMap Row.priority (a :: l)).count v := rfl
      rw [hcomp]
      exact List.sum_map_count_dedup_eq_length _

/-- Concrete instantiation of `c4_amended_sum_counts`. -/
theorem c4_witness :
    sumCounts (prio_counts c4df) = (c4df.rows.filterMap Row.priority).length :=
  c4_amended_sum_counts c4df rfl

def c5df : DataFrame :=
  { hasPriority := true, hasTicketType := true, hasResolutionStatus := true,
    hasCreatedTime := true, hasClosedTime := true,
    rows := [{ priority := some "P1", ticketType := some "Bug",
               resolutionStatus := some "within sla",
               createdTime := some 0, closedTime := some 60 }] }

/-- C5 counterexample: `app.py` line 68 tests `Resolution Status ==
"Within SLA"` by exact string equality.  On a one-row view whose status is
the lower-case `"within sla"`, its percentage is 0 while the claimed
case-insensitive-containment formula gives 100. -/
theorem c5_counterexample :
    app_sla_percentage c5df ≠
      100 * (countWithinSpec c5df : ℚ) / (c5df.rows.length : ℚ) := by
  have h1 : app_within_sla c5df = 0 := by decide
  have h2 : countWithinSpec c5df = 1 := by decide
  have h3 : c5df.rows.length = 1 := by decide
  rw [app_sla_percentage, h1, h2, h3]
  norm_num

/-- C5 as amended: in `streamlit_ticket_dashboard_app.py` the claim holds as
stated — for a non-empty view with the `Resolution Status` column present,
`sla_percentage` is 100 times the number of rows whose status
case-insensitively contains "Within", divided by `total`.  In `app.py` the
numerator is instead the number of rows whose status is exactly the string
`"Within SLA"`. -/
theorem c5_amended_sla_formula (df : DataFrame)
    (hrs : df.hasResolutionStatus = true) (ht : 0 < df.rows.length) :
    sla_percentage df = 100 * (countWithinSpec df : ℚ) / (df.rows.length : ℚ) ∧
    app_sla_percentage df =
      100 * ((df.rows.filter
          (fun r => r.resolutionStatus == some "Within SLA")).length : ℚ) /
        (df.rows.length : ℚ) := by
  constructor
  · rw [sla_percentage, if_pos ht, within_sla, hrs, if_pos rfl, countWithinSpec]
    ring
  · rw [app_sla_percentage, if_pos ht, app_within_sla, hrs, if_pos rfl]
    ring

def c5wdf : DataFrame :=
  { hasPriority := true, hasTicketType := true, hasResolutionStatus := true,
    hasCreatedTime := true, hasClosedTime := true,
    rows := [{ priority := some "P1", ticketType := some "Bug",
               resolutionStatus := some "Within SLA",
               createdTime := some 0, closedTime := some 60 },
             { priority := some "P1", ticketType := some "Bug",
               resolutionStatus := some "Breached",
               createdTime := some 0, closedTime := none }] }

/-- Concrete instantiation of `c5_amended_sla_formula`. -/
theorem c5_witness :
    sla_percentage c5wdf =
        100 * (countWithinSpec c5wdf : ℚ) / (c5wdf.rows.length : ℚ) ∧
      app_sla_percentage c5wdf =
        100 * ((c5wdf.rows.filter
            (fun r => r.resolutionStatus == some "Within SLA")).length : ℚ) /
          (c5wdf.rows.length : ℚ) :=
  c5_amended_sla_formula c5wdf rfl (by decide)

def c6row : Row :=
  { priority := some "P1", ticketType := some "Bug",
    resolutionStatus := some "Within SLA", createdTime := some 7800,
    closedTime := none }

def c6df : DataFrame :=
  { hasPriority := true, hasTicketType := true, hasResolutionStatus := true,
    hasCreatedTime := true, hasClosedTime := true, rows := [c6row] }

def c6crit : FilterCriteria :=
  { priorityFilter := [], ticketTypeFilter := [], slaFilter := [],
    dateRange := dateRangeOfInput (DateInput.single 5) }

/-- C6: behaviour of the code at the failing input.  A single selected date
`D = 5` normalizes to `start = end = 5` as claimed, but the filter compares
the full timestamp against midnight of day 5 (`7200 ≤ t ≤ 7200`), so the
row created at 10:00 of day 5 (timestamp 7800, calendar date `7800 / 1440 =
5`) is dropped even though its calendar date is exactly `D` — despite the
comment `# include full day for end_date` directly above the comparison. -/
theorem c6_single_date_drops_same_day_row :
    normalizeDateInput (DateInput.single 5) = (some 5, some 5) ∧
    dateRangeOfInput (DateInput.single 5) = some (7200, 7200) ∧
    c6row.createdTime.map (fun t => t / 1440) = some 5 ∧
    filtered_df c6df c6crit = Except.ok { c6df with rows := [] } :=
  ⟨rfl, rfl, rfl, rfl⟩

def c7df : DataFrame :=
  { hasPriority := false, hasTicketType := true, hasResolutionStatus := true,
    hasCreatedTime := true, hasClosedTime := true,
    rows := [{ priority := none, ticketType := some "Bug",
               resolutionStatus := some "Breached", createdTime := some 0,
               closedTime := none }] }

def c7crit : FilterCriteria :=
  { priorityFilter := ["P1"], ticketTypeFilter := [], slaFilter := [],
    dateRange := none }

/-- C7 counterexample: for an arbitrary FilterCriteria the claim is false —
a non-empty `Priority` selection against a dataset without a `Priority`
column makes `filtered_df[filtered_df['Priority'].isin(...)]` raise
`KeyError` rather than act as a no-op. -/
theorem c7_counterexample :
    filtered_df c7df c7crit = Except.error "KeyError: column not in index" :=
  rfl

/-- C7 as amended: restricted to the FilterCriteria the app can actually
build.  Each multiselect's selection is a subset of the options computed
from the dataset itself, and the options of an absent column are empty; so
a filter referencing an absent column necessarily has an empty selection,
removes no rows, and cannot raise. -/
theorem c7_amended_absent_column_noop (df : DataFrame) (c : FilterCriteria)
    (hp : df.hasPriority = false)
    (hsub : ∀ x ∈ c.priorityFilter,
      x ∈ filterOptions df.hasPriority Row.priority df) :
    c.priorityFilter = [] ∧
    applyCatFilter c.priorityFilter df.hasPriority Row.priority df.rows =
      Except.ok df.rows ∧
    filtered_df df c = filtered_df df { c with priorityFilter := [] } := by
  have hopts : filterOptions df.hasPriority Row.priority df = [] := by
    rw [filterOptions, hp]
    simp
  have hnil : c.priorityFilter = [] := by
    cases hcp : c.priorityFilter with
    | nil => rfl
    | cons a l =>
        exfalso
        have hmem := hsub a (by rw [hcp]; exact List.mem_cons_self a l)
        rw [hopts] at hmem
        exact List.not_mem_nil a hmem
  refine ⟨hnil, ?_, ?_⟩
  · rw [hnil]
    rfl
  · have hc : ({ c with priorityFilter := [] } : FilterCriteria) = c := by
      obtain ⟨p, t, s, d⟩ := c
      dsimp only at hnil ⊢
      subst hnil
      rfl
    rw [hc]

def c7wdf : DataFrame :=
  { hasPriority := false, hasTicketType := true, hasResolutionStatus := true,
    hasCreatedTime := true, hasClosedTime := true,
    rows := [{ priority := none, ticketType := some "Bug",
               resolutionStatus := some "Within SLA", createdTime := some 0,
               closedTime := none }] }

def c7wcrit : FilterCriteria :=
  { priorityFilter := [], ticketTypeFilter := ["Bug"], slaFilter := [],
    dateRange := none }

/-- Concrete instantiation of `c7_amended_absent_column_noop`. -/
theorem c7_witness :
    c7wcrit.priorityFilter = [] ∧
    applyCatFilter c7wcrit.priorityFilter c7wdf.hasPriority Row.priority
      c7wdf.rows = Except.ok c7wdf.rows ∧
    filtered_df c7wdf c7wcrit =
      filtered_df c7wdf { c7wcrit with priorityFilter := [] } :=
  c7_amended_absent_column_noop c7wdf c7wcrit rfl (by
    intro x hx
    exact absurd hx (List.not_mem_nil x))

lemma sum_map_div_sixty (l : List Int) :
    (l.map (fun x : Int => (x : ℚ) / 60)).sum =
      (l.map (fun x : Int => (x : ℚ))).sum / 60 := by
  induction l with
  | nil => simp
  | cons d ds ih =>
      simp only [List.map_cons, List.sum_cons, ih]
      ring

def c8df : DataFrame :=
  { hasPriority := true, hasTicketType := true, hasResolutionStatus := true,
    hasCreatedTime := true, hasClosedTime := true,
    rows := [{ priority := some "P1", ticketType := some "Bug",
               resolutionStatus := some "Breached", createdTime := some 0,
               closedTime := none }] }

/-- C8 counterexample: both timestamp columns exist and the view is
non-empty, but the single row has no `Closed Time`; the mean of the
all-`NaN` span column is `NaN`, which is rendered as "nan" — not the
`'—'` "unavailable" sentinel the claim requires for the "no row has both
fields" case. -/
theorem c8_counterexample :
    avg_resolution_metric c8df = Metric.nan ∧ Metric.nan ≠ Metric.dash :=
  ⟨rfl, by decide⟩

/-- C8 as amended: `avgResolutionHours` is the mean, in hours, of
`Closed Time − Created Time` over exactly the rows where both are present,
and the `'—'` sentinel appears when either column is absent or the view is
empty; but when both columns exist, the view is non-empty, and no row has
both timestamps, the code shows `NaN`, not the sentinel. -/
theorem c8_amended_avg_resolution (df : DataFrame) :
    ((df.hasClosedTime = false ∨ df.hasCreatedTime = false ∨ df.rows = []) →
      avg_resolution_metric df = Metric.dash) ∧
    (df.hasClosedTime = true → df.hasCreatedTime = true → df.rows ≠ [] →
      resolutionDiffs df.rows = [] → avg_resolution_metric df = Metric.nan) ∧
    (df.hasClosedTime = true → df.hasCreatedTime = true → df.rows ≠ [] →
      resolutionDiffs df.rows ≠ [] →
      avg_resolution_metric df = Metric.value (specAvgResolutionHours df.rows)) := by
  refine ⟨?_, ?_, ?_⟩
  · rintro (h | h | h)
    · rw [avg_resolution_metric, h]
      rfl
    · rw [avg_resolution_metric, h]
      simp
    · rw [avg_resolution_metric, h]
      simp
  · intro h1 h2 h3 h4
    rw [avg_resolution_metric, h1, h2]
    rw [show df.rows.isEmpty = false from List.isEmpty_eq_false.mpr h3]
    rw [h4]
    rfl
  · intro h1 h2 h3 h4
    rw [avg_resolution_metric, h1, h2]
    rw [show df.rows.isEmpty = false from List.isEmpty_eq_false.mpr h3]
    cases hd : resolutionDiffs df.rows with
    | nil => exact absurd hd h4
    | cons d ds =>
        show Metric.value _ = _
        rw [specAvgResolutionHours, hd]
        rw [sum_map_div_sixty]
        rw [div_div, div_div, mul_comm (60 : ℚ)]

def c8wdf : DataFrame :=
  { hasPriority := true, hasTicketType := true, hasResolutionStatus := true,
    hasCreatedTime := true, hasClosedTime := true,
    rows := [{ priority := some "P1", ticketType := some "Bug",
               resolutionStatus := some "Within SLA", createdTime := some 0,
               closedTime := some 120 },
             { priority := some "P4", ticketType := some "Bug",
               resolutionStatus := some "Breached", createdTime := some 60,
               closedTime := none }] }

/-- Concrete instantiation of `c8_amended_avg_resolution` (third branch). -/
theorem c8_witness :
    avg_resolution_metric c8wdf = Metric.value (specAvgResolutionHours c8wdf.rows) :=
  (c8_amended_avg_resolution c8wdf).2.2 rfl rfl (by decide) (by decide)

/-- C9 counterexample: the two supplied dates 5 and 3 are used in the given
order — the interval handed to the filter is `(7200, 4320)` with
`start > end`; no swap is performed. -/
theorem c9_counterexample :
    normalizeDateInput (DateInput.list [5, 3]) = (some 5, some 3) ∧
    dateRangeOfInput (DateInput.list [5, 3]) = some (7200, 4320) ∧
    ¬(7200 : Nat) ≤ 4320 :=
  ⟨rfl, rfl, by decide⟩

/-- C9 as amended: two supplied values are used as `(start, end)` in the
given order, with no swap; consequently when the first exceeds the second
the interval is empty and the date filter removes every row. -/
theorem c9_amended_no_swap :
    (∀ a b : Nat, normalizeDateInput (DateInput.list [a, b]) = (some a, some b)) ∧
    (∀ s e : Nat, ∀ rows : List Row, e < s →
      applyDateFilter (some (s, e)) true rows = []) := by
  constructor
  · intro a b
    rfl
  · intro s e rows hlt
    show List.filter (datePred s e) rows = []
    apply List.filter_eq_nil_iff.mpr
    intro a _
    rw [datePred]
    cases hct : a.createdTime with
    | none => simp
    | some t =>
        simp only [Bool.and_eq_true, decide_eq_true_eq, not_and]
        intro hst hte
        omega

/-- Concrete instantiation of `c9_amended_no_swap`. -/
theorem c9_witness :
    normalizeDateInput (DateInput.list [7, 2]) = (some 7, some 2) ∧
    applyDateFilter (some (3, 1)) true
      [{ priority := none, ticketType := none, resolutionStatus := none,
         createdTime := some 2, closedTime := none }] = [] :=
  ⟨c9_amended_no_swap.1 7 2, c9_amended_no_swap.2 3 1 _ (by decide)⟩

/-- C10: the exported sheet receives `filtered_df` itself — the
FilteredView rows in the Dataset's original relative order (a sublist of
the Dataset) — while the rendered table is a sorted copy: a permutation of
the exported rows, ordered by `Created Time` descending (missing last). -/
theorem c10_export_unsorted_display_sorted (df v : DataFrame)
    (c : FilterCriteria) (h : filtered_df df c = Except.ok v)
    (hct : v.hasCreatedTime = true) :
    export_rows v = v.rows ∧
    v.rows.Sublist df.rows ∧
    display_table v = Except.ok (List.insertionSort dispLe v.rows) ∧
    (List.insertionSort dispLe v.rows).Perm (export_rows v) ∧
    List.Sorted dispLe (List.insertionSort dispLe v.rows) := by
  obtain ⟨r1, r2, r3, h1, h2, h3, hv⟩ := filtered_df_ok_iff.mp h
  have hs : v.rows.Sublist df.rows := by
    rw [hv]
    exact ((applyDateFilter_sublist _ _ _).trans
      (applyCatFilter_ok_sublist h3)).trans
      ((applyCatFilter_ok_sublist h2).trans (applyCatFilter_ok_sublist h1))
  refine ⟨rfl, hs, ?_, ?_, ?_⟩
  · rw [display_table, hct]
    simp
  · exact List.perm_insertionSort dispLe v.rows
  · exact List.sorted_insertionSort dispLe v.rows

def c10df : DataFrame :=
  { hasPriority := true, hasTicketType := true, hasResolutionStatus := true,
    hasCreatedTime := true, hasClosedTime := true,
    rows := [{ priority := some "P1", ticketType := some "Bug",
               resolutionStatus := some "Within SLA", createdTime := some 60,
               closedTime := some 120 },
             { priority := some "P2", ticketType := some "Request",
               resolutionStatus := some "Breached", createdTime := some 2880,
               closedTime := none },
             { priority := some "P3", ticketType := some "Bug",
               resolutionStatus := some "Breached", createdTime := none,
               closedTime := none }] }

def c10crit : FilterCriteria :=
  { priorityFilter := [], ticketTypeFilter := ["Bug"], slaFilter := [],
    dateRange := none }

def c10view : DataFrame :=
  { hasPriority := true, hasTicketType := true, hasResolutionStatus := true,
    hasCreatedTime := true, hasClosedTime := true,
    rows := [{ priority := some "P1", ticketType := some "Bug",
               resolutionStatus := some "Within SLA", createdTime := some 60,
               closedTime := some 120 },
             { priority := some "P3", ticketType := some "Bug",
               resolutionStatus := some "Breached", createdTime := none,
               closedTime := none }] }

/-- Concrete instantiation of `c10_export_unsorted_display_sorted`. -/
theorem c10_witness :
    export_rows c10view = c10view.rows ∧
    c10view.rows.Sublist c10df.rows ∧
    display_table c10view = Except.ok (List.insertionSort dispLe c10view.rows) ∧
    (List.insertionSort dispLe c10view.rows).Perm (export_rows c10view) ∧
    List.Sorted dispLe (List.insertionSort dispLe c10view.rows) :=
  c10_export_unsorted_display_sorted c10df c10view c10crit rfl rfl
